import Mathlib

/-!
Verification development for the crawl/download pipeline of
samedit66/yandex-images-crawler.

The Python sources are shallowly embedded: the per-iteration bodies of the
worker loops (`ImageLoader.run` in `image_loader.py`, `YandexCrawler.run` in
`yandex_crawler.py`) become step functions on explicit state, the
fetch/convert/store pipeline (`imgdl/downloader.py`) becomes a state-passing
function returning `Except`, and the CLI wiring (`download.py`) becomes pure
functions over a parsed-argument record. Machine integers are `Nat`/`Int`;
the shared flag `is_active` is a `Bool` field (the TerminationSignal of the
spec is set exactly when `is_active` is false).
-/

namespace YIC

/-- An item placed on the load queue by the crawler
(`yandex_crawler.py` line 52 puts the tuple `(link, (width, height))`):
the image link and the optional width and height parsed from the page. -/
structure QItem where
  link : String
  width : Option Nat
  height : Option Nat
deriving DecidableEq, Repr

/-- Static configuration of one `ImageLoader` worker (`image_loader.py`,
`__init__`): the target `images_count` and the batch `chunk_size` (default
1, and `download.py` instantiates the loaders with that default). -/
structure LoaderCfg where
  imagesCount : Nat
  chunkSize : Nat
deriving DecidableEq, Repr

/-- Unhandled Python exceptions `ImageLoader.run` can die of: an
`AttributeError` from `image.link` on a queued tuple (`image_loader.py`
line 50), or a `TypeError` from the keyword argument `verbose` that
`imgdl.downloader.download` does not accept (line 52). -/
inductive PyExc where
  | attributeError
  | typeError
deriving DecidableEq, Repr

/-- The call `ImageLoader.__download_images(count)` as this program can
actually run it (`image_loader.py` lines 46-59). With `count >= 1`, the
first loop iteration pulls one item off the queue and then `image.link`
raises `AttributeError`, because the queue holds the plain tuples
`yandex_crawler.py` line 52 enqueues. With `count = 0` the loop is skipped
and the call `download(images, store_path=self.image_dir, verbose=False)`
raises `TypeError`, since `download` has no `verbose` parameter (and would
raise it for `count >= 1` too, were the loop survived). The method
therefore never returns: the outcome is the exception together with the
queue as left after the items consumed before the raise. -/
def downloadImagesRun (count : Nat) (queue : List QItem) : PyExc × List QItem :=
  if count = 0 then (PyExc.typeError, queue)
  else (PyExc.attributeError, queue.drop 1)

/-- State of one `ImageLoader` worker together with the shared state it
reads and writes: `active` mirrors the shared `is_active.value` (the
TerminationSignal of the spec is set exactly when `active = false`),
`queue` is the load queue as this worker sees it, `total` is the worker's
own `total_downloaded_count` (a plain attribute, hence per-worker),
`halted` records that `run` has returned, and `crashed` that `run` died of
an unhandled exception (`run` has no try/except around its body). -/
structure LoaderState where
  active : Bool
  queue : List QItem
  total : Nat
  halted : Bool
  crashed : Bool
deriving DecidableEq, Repr

/-- One iteration of the `while True` loop of `ImageLoader.run`
(`image_loader.py` lines 61-77), taken sequentially. When `is_active` is
false: with items buffered, `__download_images(qsize())` is called and
raises after consuming one item, killing the worker before the log, the
close and the return; with nothing buffered the worker closes its progress
bar and returns. When `is_active` is true: if `qsize() >= chunk_size` the
batch call `__download_images(chunk_size)` likewise raises and kills the
worker before the line-73 check; otherwise, when `total_downloaded_count ==
images_count`, the worker clears `is_active` and returns. A worker that has
returned or crashed does not step any further. -/
def loaderStep (cfg : LoaderCfg) (s : LoaderState) : LoaderState :=
  if s.halted || s.crashed then s
  else if !s.active then
    if 0 < s.queue.length then
      { s with queue := (downloadImagesRun s.queue.length s.queue).2,
               crashed := true }
    else { s with halted := true }
  else
    if cfg.chunkSize ≤ s.queue.length then
      { s with queue := (downloadImagesRun cfg.chunkSize s.queue).2,
               crashed := true }
    else if s.total = cfg.imagesCount then
      { s with active := false, halted := true }
    else s

/-- Static configuration of one `YandexCrawler` worker: `items n` is the
item shown at gallery position `n` (read by `__get_image_link`), `readOk n`
whether reading and enqueueing the current item succeeds (a failure inside
`__get_image_link` is caught in `run`, logged, and the loop continues), and
`advanceOk n` whether the click on the next-image button at position `n`
succeeds (`__next_preview`). -/
structure CrawlerCfg where
  items : Nat → QItem
  readOk : Nat → Bool
  advanceOk : Nat → Bool

/-- Local state of one `YandexCrawler`: the gallery position, whether `run`
has returned, and whether the web driver has been closed. -/
structure CrawlerState where
  pos : Nat
  halted : Bool
  closed : Bool
deriving DecidableEq, Repr

/-- Shared state as a crawler sees it: `is_active.value` and the load
queue. -/
structure Shared where
  active : Bool
  queue : List QItem
deriving DecidableEq, Repr

/-- One iteration of the `while True` loop of `YandexCrawler.run`
(`yandex_crawler.py` lines 63-76), taken sequentially: when `is_active` is
false, close the driver and return; otherwise `__get_image_link` reads the
current item and enqueues it (on an exception the loop merely logs and
continues), and `__next_preview` tries to click the next-image button -- on
failure it only logs a critical message, so the position is unchanged and
the loop continues. The crawler never writes `is_active`. -/
def crawlerStep (cr : CrawlerCfg) (c : CrawlerState) (sh : Shared) :
    CrawlerState × Shared :=
  if c.halted then (c, sh)
  else if !sh.active then
    ({ c with halted := true, closed := true }, sh)
  else if !(cr.readOk c.pos) then (c, sh)
  else
    let sh1 : Shared := { sh with queue := sh.queue ++ [cr.items c.pos] }
    let c1 : CrawlerState :=
      if cr.advanceOk c.pos then { c with pos := c.pos + 1 } else c
    (c1, sh1)

/-- Loader configuration with target 0 and the default chunk size 1. -/
def cfgZero : LoaderCfg := ⟨0, 1⟩

/-- Initial loader state: signal not set, empty queue, nothing downloaded,
running. -/
def lsInit : LoaderState := ⟨true, [], 0, false, false⟩

/-- Crawler configuration whose next-image button click always fails while
reading the current item always succeeds. -/
def crStuck : CrawlerCfg := ⟨fun _ => ⟨"img", none, none⟩, fun _ => true, fun _ => false⟩

/-- Initial crawler state at position 0, running, driver open. -/
def csInit : CrawlerState := ⟨0, false, false⟩

/-- Shared state with the signal not set and an empty queue. -/
def shActive : Shared := ⟨true, []⟩

/-- PIL image modes occurring in the conversion logic of
`ImageDownloader.convert_image`. -/
inductive PMode where
  | RGB
  | RGBA
  | P
  | L
  | LA
deriving DecidableEq, Repr

/-- A pixel as an (r, g, b, a) quadruple of channel values. -/
abbrev Pixel := Nat × Nat × Nat × Nat

/-- A decoded image as `convert_image` sees it: the container format
reported by PIL (`img.format`), the color mode (`img.mode`), and the pixel
data. For modes without an alpha channel `a = 255`; for mode `P` the
quadruple is the palette entry (with its transparency value) the pixel
refers to, which is what `convert("RGBA")` resolves it to. -/
structure PImage where
  format : Option String
  mode : PMode
  pixels : List Pixel
deriving DecidableEq, Repr

/-- One channel of pasting a pixel with alpha `a` onto opaque white using
the pixel's own alpha band as mask, as `background.paste(img, img)` does:
`(c * a + 255 * (255 - a)) / 255`. -/
def blendWhite (c a : Nat) : Nat := (c * a + 255 * (255 - a)) / 255

/-- The compositing sequence `Image.new("RGBA", size, (255, 255, 255))`,
`background.paste(img, img)`, `background.convert("RGB")`: blend each
channel onto white through the alpha band and drop the alpha channel. -/
def whiteFlattenPix : Pixel → Pixel
  | (r, g, b, a) => (blendWhite r a, blendWhite g a, blendWhite b a, 255)

/-- Plain `img.convert("RGB")`: color channels are kept (palette entries
are resolved, which the pixel representation already carries) and the alpha
band, if any, is discarded rather than composited. -/
def dropAlphaPix : Pixel → Pixel
  | (r, g, b, _) => (r, g, b, 255)

/-- The static method `ImageDownloader.convert_image` (`imgdl/downloader.py`
lines 197-224): white-composite a PNG-format RGBA image, white-composite a
mode-P image after resolving it to RGBA, plainly convert any other non-RGB
mode, and return an RGB image unchanged. -/
def convert_image (img : PImage) : PImage :=
  if img.format = some "PNG" ∧ img.mode = PMode.RGBA then
    { format := img.format, mode := PMode.RGB,
      pixels := img.pixels.map whiteFlattenPix }
  else if img.mode = PMode.P then
    { format := img.format, mode := PMode.RGB,
      pixels := img.pixels.map whiteFlattenPix }
  else if img.mode ≠ PMode.RGB then
    { format := img.format, mode := PMode.RGB,
      pixels := img.pixels.map dropAlphaPix }
  else img

/-- Modes carrying an alpha channel among the modelled ones. -/
def hasAlphaMode : PMode → Bool
  | PMode.RGBA => true
  | PMode.LA => true
  | _ => false

/-- Written from the words of the C4 spec sentences: any paletted image, or
any image with an alpha channel, is composited onto a white background and
flattened to 3-channel color; any other non-3-channel mode is converted to
3-channel color; an already-3-channel image passes through unchanged. -/
def specConvertImageC4 (img : PImage) : PImage :=
  if img.mode = PMode.P ∨ hasAlphaMode img.mode then
    { format := img.format, mode := PMode.RGB,
      pixels := img.pixels.map whiteFlattenPix }
  else if img.mode ≠ PMode.RGB then
    { format := img.format, mode := PMode.RGB,
      pixels := img.pixels.map dropAlphaPix }
  else img

/-- Written from the C4 claim as amended, with the compositing class
narrowed to what the code does: only a PNG-format image with an alpha
channel, and any paletted image, are composited onto white; every other
non-3-channel image -- alpha channel or not -- is plainly converted to
3-channel color; 3-channel images pass through unchanged. -/
def specConvertImageC4Amended (img : PImage) : PImage :=
  match img.mode with
  | PMode.RGB => img
  | PMode.P =>
      { format := img.format, mode := PMode.RGB,
        pixels := img.pixels.map whiteFlattenPix }
  | PMode.RGBA =>
      if img.format = some "PNG" then
        { format := img.format, mode := PMode.RGB,
          pixels := img.pixels.map whiteFlattenPix }
      else
        { format := img.format, mode := PMode.RGB,
          pixels := img.pixels.map dropAlphaPix }
  | _ =>
      { format := img.format, mode := PMode.RGB,
        pixels := img.pixels.map dropAlphaPix }

/-- A one-pixel image with an alpha channel whose container format is not
PNG: a fully transparent black pixel in a WEBP file. -/
def webpTransparent : PImage := ⟨some "WEBP", PMode.RGBA, [(0, 0, 0, 0)]⟩

/-- Failure kinds of the fetch/decode part of the pipeline: a non-success
HTTP status raised by `raise_for_status`, or a body `Image.open` cannot
decode. -/
inductive DlError where
  | httpError (status : Nat)
  | decodeError
deriving DecidableEq, Repr

/-- Modelled from the spec: the StorageBackend collaborator
(`imgdl/storage/backend.py` is not among the sources here). Per the spec
capability set, `exists` tests whether a file is stored under a key and
`save` persists an image under a key so that `exists` then holds; the state
is the list of (key, image) pairs stored so far. -/
structure Store where
  files : List (String × PImage)
deriving DecidableEq, Repr

/-- Modelled from the spec: `StorageBackend.exists(key)`. -/
def Store.existsKey (σ : Store) (p : String) : Bool :=
  σ.files.any (fun f => f.1 == p)

/-- Modelled from the spec: `StorageBackend.save(image, key)`. -/
def Store.save (σ : Store) (img : PImage) (p : String) : Store :=
  ⟨(p, img) :: σ.files⟩

/-- Configuration of an `ImageDownloader`: the storage key function
(`storage.get_filepath`, which resolves a url to a destination path), the
fetch-and-decode outcome per url (`session.get` followed by
`raise_for_status` and `Image.open`, deterministic per url in this model),
and the `force` flag of the call. -/
structure DlCfg where
  getFilepath : String → String
  fetch : String → Except DlError PImage
  force : Bool

/-- The method `ImageDownloader._download_image` (`imgdl/downloader.py`
lines 114-191): resolve the path, short-circuit with the existing path when
the file exists and force is off, otherwise fetch, convert and save; any
exception is re-raised to the caller (the future). The `Nat` component
counts `session.get` network calls made by the invocation. -/
def downloadImage (cfg : DlCfg) (σ : Store) (url : String)
    (path : Option String) : Except DlError String × Store × Nat :=
  if σ.existsKey (path.getD (cfg.getFilepath url)) && !cfg.force then
    (Except.ok (path.getD (cfg.getFilepath url)), σ, 0)
  else
    match cfg.fetch url with
    | Except.ok img =>
        (Except.ok (path.getD (cfg.getFilepath url)),
         σ.save (convert_image img) (path.getD (cfg.getFilepath url)), 1)
    | Except.error e => (Except.error e, σ, 1)

/-- Result of `ImageDownloader.__call__`: the `DownloadingResult`
dataclass of `imgdl/downloader.py` lines 17-22 -- paths of downloaded
images and urls of the images that failed to download. -/
structure DownloadingResult where
  downloaded : List String
  failed : List String
deriving DecidableEq, Repr

/-- The method `ImageDownloader.__call__` (`imgdl/downloader.py` lines
61-112): submit `_download_image` for every url, and as the futures
complete append the result path to `downloaded` when the future holds no
exception and the url to `failed` otherwise. The thread pool is modelled by
resolving the submissions in order; the property under check is insensitive
to completion order. -/
def callDownloader (cfg : DlCfg) (σ : Store) (urls : List String) :
    DownloadingResult × Store :=
  match urls with
  | [] => (⟨[], []⟩, σ)
  | url :: rest =>
      let r := downloadImage cfg σ url none
      let tail := callDownloader cfg r.2.1 rest
      match r.1 with
      | Except.ok p => (⟨p :: tail.1.downloaded, tail.1.failed⟩, tail.2)
      | Except.error _ => (⟨tail.1.downloaded, url :: tail.1.failed⟩, tail.2)

/-- Parameter names of the function `download` of `imgdl/downloader.py`
(lines 234-243). -/
def downloadParamNames : List String :=
  ["urls", "paths", "store_path", "n_workers", "timeout", "min_wait",
   "max_wait", "session", "force"]

/-- Keyword-argument names of the call
`download(images, store_path=self.image_dir, verbose=False)` made by
`ImageLoader.__download_images` (`image_loader.py` line 52). -/
def loaderDownloadKwargs : List String := ["store_path", "verbose"]

/-- Python keyword-argument binding: a keyword that is not among the callee
parameter names makes the call raise a `TypeError` before the body runs. -/
def bindKwargs (params kwargs : List String) : Except String Unit :=
  match kwargs.find? (fun k => !params.contains k) with
  | some k => Except.error ("TypeError: unexpected keyword argument " ++ k)
  | none => Except.ok ()

/-- The shortfall log line of `ImageLoader.__download_images`
(`image_loader.py` line 56). -/
def shortfallMsg (count downloaded : Nat) : String :=
  "Failed to load " ++ toString count ++ " images; loaded count: " ++
    toString downloaded

/-- The skip-set computation of `__parse_args` (`download.py` lines
163-174): identifiers are filenames cut at the first dot, collected from
the top level of the output directory and from the whole of `--prev-dir`. -/
def computeSkipFiles (outFiles prevFiles : List String) : List String :=
  (outFiles ++ prevFiles).map (fun f => (f.splitOn ".").headD "")

/-- The count adjustment of `__parse_args` (`download.py` lines 163-168):
when `--count` is positive it is raised by the number of files at the top
level of the output directory (the first `os.walk` tuple, then `break`);
otherwise it is left as it is. -/
def adjustedCount (count : Int) (outFiles : List String) : Int :=
  if 0 < count then count + (outFiles.length : Int) else count

/-- The namespace object `__parse_args` returns (the fields `main` can
read). -/
structure ParsedArgs where
  links : List String
  size : Nat × Nat
  count : Int
  imageDir : String
  skipFiles : List String
deriving DecidableEq, Repr

/-- The tail of `__parse_args` (`download.py` lines 140-176) after argument
validation, as a function of the CLI values and of the directory listings:
`outFiles` are the files at the top level of the output directory,
`prevFiles` the files anywhere under `--prev-dir`. -/
def parseArgsModel (links : List String) (size : Nat × Nat) (count : Int)
    (dir : String) (outFiles prevFiles : List String) : ParsedArgs :=
  { links := links
    size := size
    count := adjustedCount count outFiles
    imageDir := dir
    skipFiles := computeSkipFiles outFiles prevFiles }

/-- The argument tuple `main` (`download.py` lines 179-181) passes to
`download`: the links, the count and the image directory -- and nothing
else. -/
def mainDownloadArgs (a : ParsedArgs) : List String × Int × String :=
  (a.links, a.count, a.imageDir)

/-- C1 counterexample: with target 0 and an empty queue, the very first
iteration of `ImageLoader.run` finds `total_downloaded_count ==
images_count` (0 = 0), clears `is_active` (sets the TerminationSignal) and
returns, so the worker does set the signal itself on a run started with
target 0. -/
theorem C1_counterexample :
    cfgZero.imagesCount = 0 ∧ lsInit.active = true ∧
    (loaderStep cfgZero lsInit).active = false ∧
    (loaderStep cfgZero lsInit).halted = true ∧
    (loaderStep cfgZero lsInit).total = 0 :=
  ⟨rfl, rfl, rfl, rfl, rfl⟩

/-- C1 (amended): an iteration that a loader worker begins active sets the
TerminationSignal exactly when no batch is due (fewer than `chunk_size`
items buffered) and the worker's cumulative successful-download count
equals `images_count` -- regardless of whether the target is positive; an
iteration with a batch due instead crashes the worker inside
`__download_images` before the line-73 check, leaving the count untouched.
Since every batch crashes, the count stays at its initial 0, so the worker
itself sets the signal exactly at a poll with target 0 and too few items
buffered for a batch. -/
theorem C1_signal_iff_no_batch_and_total_eq_target (cfg : LoaderCfg)
    (s : LoaderState) (hh : s.halted = false) (hc : s.crashed = false)
    (ha : s.active = true) :
    ((loaderStep cfg s).active = false ↔
      s.queue.length < cfg.chunkSize ∧ s.total = cfg.imagesCount) ∧
    (cfg.chunkSize ≤ s.queue.length →
      (loaderStep cfg s).crashed = true ∧
      (loaderStep cfg s).total = s.total) := by
  by_cases hq : cfg.chunkSize ≤ s.queue.length
  · constructor
    · simp [loaderStep, hh, hc, ha, hq, Nat.not_lt.mpr hq]
    · intro _
      constructor
      · simp [loaderStep, hh, hc, ha, hq]
      · simp [loaderStep, hh, hc, ha, hq]
  · constructor
    · by_cases ht : s.total = cfg.imagesCount
      · simp [loaderStep, hh, hc, ha, hq, ht, Nat.lt_of_not_le hq]
      · simp [loaderStep, hh, hc, ha, hq, ht]
    · intro h
      exact absurd h hq

/-- C1 witness: the amended statement at concrete inputs. With target 0 and
an empty queue the signal ends up set (via the right-to-left direction);
with target 2, one item buffered and a batch therefore due, the worker
ends the iteration crashed. -/
theorem C1_signal_iff_no_batch_and_total_eq_target_witness :
    (loaderStep cfgZero lsInit).active = false ∧
    (loaderStep ⟨2, 1⟩ ⟨true, [⟨"a", none, none⟩], 0, false, false⟩).crashed = true :=
  ⟨(C1_signal_iff_no_batch_and_total_eq_target cfgZero lsInit
      rfl rfl rfl).1.mpr (by decide),
   ((C1_signal_iff_no_batch_and_total_eq_target ⟨2, 1⟩
      ⟨true, [⟨"a", none, none⟩], 0, false, false⟩ rfl rfl rfl).2
      (by decide)).1⟩

/-- C2 counterexample: a worker whose cumulative count has already reached
the target (target 0, count 0) but that has an item buffered does not set
the TerminationSignal: the batch call `__download_images(1)` crashes it
first (`is_active` still true), and the dead worker's step is the identity,
so the signal never becomes true through it. -/
theorem C2_counterexample :
    (LoaderState.mk true [⟨"img", none, none⟩] 0 false false).total =
      (LoaderCfg.mk 0 1).imagesCount ∧
    (loaderStep ⟨0, 1⟩ ⟨true, [⟨"img", none, none⟩], 0, false, false⟩).active = true ∧
    (loaderStep ⟨0, 1⟩ ⟨true, [⟨"img", none, none⟩], 0, false, false⟩).crashed = true ∧
    loaderStep ⟨0, 1⟩
        (loaderStep ⟨0, 1⟩ ⟨true, [⟨"img", none, none⟩], 0, false, false⟩) =
      loaderStep ⟨0, 1⟩ ⟨true, [⟨"img", none, none⟩], 0, false, false⟩ :=
  ⟨rfl, rfl, rfl, rfl⟩

/-- C2 (amended): the signal, once set, is never reset and producers
respect it; a worker at the target sets it only when no batch is due.
Conjuncts:
(1) a loader step never turns `is_active` back on;
(2) a crawler step never writes `is_active` at all;
(3) a crawler that observes the signal set (`is_active` false) halts
without enqueueing anything;
(4) a running loader worker whose count equals the target sets the signal
in an iteration with fewer than `chunk_size` items buffered (with a batch
due it crashes instead, see the counterexample). -/
theorem C2_termination_monotonic_amended (cfg : LoaderCfg) (s : LoaderState)
    (cr : CrawlerCfg) (c : CrawlerState) (sh : Shared) :
    (s.active = false → (loaderStep cfg s).active = false) ∧
    ((crawlerStep cr c sh).2.active = sh.active) ∧
    (c.halted = false → sh.active = false →
      (crawlerStep cr c sh).1.halted = true ∧
      (crawlerStep cr c sh).2.queue = sh.queue) ∧
    (s.halted = false → s.crashed = false → s.active = true →
      s.total = cfg.imagesCount → s.queue.length < cfg.chunkSize →
      (loaderStep cfg s).active = false) := by
  refine ⟨?_, ?_, ?_, ?_⟩
  · intro ha
    unfold loaderStep
    rw [ha]
    split
    · exact ha
    · split
      · split <;> rfl
      · next h => exact absurd rfl h
  · unfold crawlerStep
    split
    · rfl
    · split
      · rfl
      · split
        · rfl
        · rfl
  · intro hh ha
    unfold crawlerStep
    rw [hh, ha]
    simp
  · intro hh hc ha ht hq
    simp [loaderStep, hh, hc, ha, ht, Nat.not_le_of_lt hq]

/-- C2 witness: the four conjuncts at concrete inputs. A loader step from a
cleared flag keeps it cleared; the crawler never writes the flag and,
observing it cleared, halts with the queue untouched; a running worker at
target 0 with an empty queue clears the flag. -/
theorem C2_termination_monotonic_amended_witness :
    (loaderStep ⟨1, 1⟩ ⟨false, [], 5, false, false⟩).active = false ∧
    ((crawlerStep crStuck csInit ⟨false, []⟩).2.active = (false : Bool)) ∧
    ((crawlerStep crStuck csInit ⟨false, []⟩).1.halted = true ∧
      (crawlerStep crStuck csInit ⟨false, []⟩).2.queue = ([] : List QItem)) ∧
    (loaderStep cfgZero lsInit).active = false :=
  ⟨(C2_termination_monotonic_amended ⟨1, 1⟩ ⟨false, [], 5, false, false⟩
      crStuck csInit ⟨false, []⟩).1 rfl,
   (C2_termination_monotonic_amended ⟨1, 1⟩ ⟨false, [], 5, false, false⟩
      crStuck csInit ⟨false, []⟩).2.1,
   (C2_termination_monotonic_amended ⟨1, 1⟩ ⟨false, [], 5, false, false⟩
      crStuck csInit ⟨false, []⟩).2.2.1 rfl rfl,
   (C2_termination_monotonic_amended cfgZero lsInit
      crStuck csInit ⟨false, []⟩).2.2.2 rfl rfl rfl rfl (by decide)⟩

/-- C3: the code at the claim's scenario. A worker that observes the
TerminationSignal set with two items buffered calls
`__download_images(qsize())`: it pulls exactly one item off the queue and
dies of the `AttributeError` -- `run` never returns, nothing is processed,
the count is unchanged and the second item is left behind un-pulled. The
claimed drain-process-exit shape occurs only with nothing buffered, where
the worker returns cleanly having pulled nothing. -/
theorem C3_crash_on_drain :
    (loaderStep ⟨5, 1⟩
      ⟨false, [⟨"a", none, none⟩, ⟨"b", none, none⟩], 0, false, false⟩).crashed = true ∧
    (loaderStep ⟨5, 1⟩
      ⟨false, [⟨"a", none, none⟩, ⟨"b", none, none⟩], 0, false, false⟩).halted = false ∧
    (loaderStep ⟨5, 1⟩
      ⟨false, [⟨"a", none, none⟩, ⟨"b", none, none⟩], 0, false, false⟩).queue =
        [⟨"b", none, none⟩] ∧
    (loaderStep ⟨5, 1⟩
      ⟨false, [⟨"a", none, none⟩, ⟨"b", none, none⟩], 0, false, false⟩).total = 0 ∧
    downloadImagesRun 2 [⟨"a", none, none⟩, ⟨"b", none, none⟩] =
      (PyExc.attributeError, [⟨"b", none, none⟩]) ∧
    (loaderStep ⟨5, 1⟩ ⟨false, [], 0, false, false⟩).halted = true ∧
    (loaderStep ⟨5, 1⟩ ⟨false, [], 0, false, false⟩).crashed = false :=
  ⟨rfl, rfl, rfl, rfl, rfl, rfl, rfl⟩

/-- C7 counterexample: when advancing to the next item fails, the crawler
does not close its navigator and does not return -- it stays at the same
position and on the next iteration enqueues the same item again (here twice
in two iterations). -/
theorem C7_counterexample :
    crStuck.advanceOk csInit.pos = false ∧
    (crawlerStep crStuck csInit shActive).1.halted = false ∧
    (crawlerStep crStuck csInit shActive).1.closed = false ∧
    (crawlerStep crStuck csInit shActive).1.pos = 0 ∧
    (crawlerStep crStuck (crawlerStep crStuck csInit shActive).1
        (crawlerStep crStuck csInit shActive).2).2.queue =
      [⟨"img", none, none⟩, ⟨"img", none, none⟩] :=
  ⟨rfl, rfl, rfl, rfl, rfl⟩

/-- C7 (amended): when the advance to the next item fails, the crawler
logs a critical message and continues the loop unchanged -- same position,
driver still open, `run` not returned -- having enqueued the current item;
it closes the navigator and returns only upon observing the
TerminationSignal (see C2), so exhaustion is retried forever rather than
treated as a terminal condition. -/
theorem C7_advance_failure_keeps_running (cr : CrawlerCfg) (c : CrawlerState)
    (sh : Shared) (hh : c.halted = false) (ha : sh.active = true)
    (hr : cr.readOk c.pos = true) (hadv : cr.advanceOk c.pos = false) :
    (crawlerStep cr c sh).1 = c ∧
    (crawlerStep cr c sh).2 = { sh with queue := sh.queue ++ [cr.items c.pos] } := by
  unfold crawlerStep
  rw [hh, ha, hr, hadv]
  simp

/-- C7 witness: the amended statement at the concrete stuck configuration. -/
theorem C7_advance_failure_keeps_running_witness :
    (crawlerStep crStuck csInit shActive).1 = csInit ∧
    (crawlerStep crStuck csInit shActive).2 =
      { shActive with queue := shActive.queue ++ [crStuck.items csInit.pos] } :=
  C7_advance_failure_keeps_running crStuck csInit shActive rfl rfl rfl rfl

/-- C4 counterexample: a non-PNG image with an alpha channel (a WEBP RGBA
image with one fully transparent black pixel) is not composited onto white
by `convert_image` -- the alpha band is simply dropped, leaving a black
pixel where the spec sentence demands a white one. -/
theorem C4_counterexample :
    convert_image webpTransparent ≠ specConvertImageC4 webpTransparent ∧
    (convert_image webpTransparent).pixels = [(0, 0, 0, 255)] ∧
    (specConvertImageC4 webpTransparent).pixels = [(255, 255, 255, 255)] := by
  refine ⟨?_, rfl, rfl⟩
  decide

/-- C4 (amended): `convert_image` composites onto white exactly the
PNG-format RGBA images and the paletted (mode P) images; every other
non-3-channel image, alpha channel or not, is converted to 3-channel color
by plain mode conversion; an already-3-channel image is returned with its
color mode unchanged. -/
theorem C4_convert_matches_amended (img : PImage) :
    convert_image img = specConvertImageC4Amended img := by
  rcases img with ⟨f, m, px⟩
  cases m
  case RGB => simp [convert_image, specConvertImageC4Amended]
  case RGBA =>
    by_cases hf : f = some "PNG" <;>
      simp [convert_image, specConvertImageC4Amended, hf]
  case P => simp [convert_image, specConvertImageC4Amended]
  case L => simp [convert_image, specConvertImageC4Amended]
  case LA => simp [convert_image, specConvertImageC4Amended]

/-- When forcing is off and the key already exists, the pipeline
short-circuits: the existing path is returned, the store is untouched, no
network call is made. -/
theorem downloadImage_of_exists (cfg : DlCfg) (σ : Store) (url : String)
    (path : Option String) (hforce : cfg.force = false)
    (hex : Store.existsKey σ (path.getD (cfg.getFilepath url)) = true) :
    downloadImage cfg σ url path =
      (Except.ok (path.getD (cfg.getFilepath url)), σ, 0) := by
  unfold downloadImage
  rw [hforce, hex]
  simp

/-- A successful pipeline invocation returns the resolved path and leaves
the store holding that key. -/
theorem downloadImage_ok_cases (cfg : DlCfg) (σ : Store) (url : String)
    (path : Option String) (p : String)
    (h1 : (downloadImage cfg σ url path).1 = Except.ok p) :
    path.getD (cfg.getFilepath url) = p ∧
    Store.existsKey (downloadImage cfg σ url path).2.1 p = true := by
  unfold downloadImage at h1 ⊢
  by_cases hex : (Store.existsKey σ (path.getD (cfg.getFilepath url)) && !cfg.force) = true
  · rw [hex] at h1 ⊢
    simp only [if_true] at h1 ⊢
    simp only [Except.ok.injEq] at h1
    refine ⟨h1, ?_⟩
    rw [← h1]
    exact (Bool.and_eq_true .. ▸ hex).1
  · rw [Bool.not_eq_true] at hex
    rw [hex] at h1 ⊢
    simp only [Bool.false_eq_true, if_false] at h1 ⊢
    cases hfetch : cfg.fetch url with
    | ok img =>
        rw [hfetch] at h1
        have hp : path.getD (cfg.getFilepath url) = p := Except.ok.inj h1
        refine ⟨hp, ?_⟩
        show (σ.save (convert_image img) (path.getD (cfg.getFilepath url))).existsKey p = true
        simp [Store.existsKey, Store.save, hp]
    | error e =>
        rw [hfetch] at h1
        simp at h1

/-- C5: with forcing disabled, a second invocation of the fetch/convert/
store pipeline for the same url and destination key after a successful
first one short-circuits on the existence check: it returns the same path,
leaves the store as it was, and makes zero network calls. -/
theorem C5_pipeline_idempotent (cfg : DlCfg) (σ : Store) (url : String)
    (path : Option String) (p : String) (hforce : cfg.force = false)
    (h1 : (downloadImage cfg σ url path).1 = Except.ok p) :
    downloadImage cfg (downloadImage cfg σ url path).2.1 url path =
      (Except.ok p, (downloadImage cfg σ url path).2.1, 0) := by
  obtain ⟨hp, hex⟩ := downloadImage_ok_cases cfg σ url path p h1
  rw [downloadImage_of_exists cfg _ url path hforce (by rw [hp]; exact hex), hp]

/-- Downloader configuration for the C5 witness: the key is the url with a
jpg extension, every fetch succeeds with an empty RGB image, forcing off. -/
def cfgDl : DlCfg := ⟨fun u => u ++ ".jpg", fun _ => Except.ok ⟨none, PMode.RGB, []⟩, false⟩

/-- C5 witness: the idempotence statement at a concrete input starting from
an empty store. -/
theorem C5_pipeline_idempotent_witness :
    downloadImage cfgDl (downloadImage cfgDl ⟨[]⟩ "u" none).2.1 "u" none =
      (Except.ok "u.jpg", (downloadImage cfgDl ⟨[]⟩ "u" none).2.1, 0) :=
  C5_pipeline_idempotent cfgDl ⟨[]⟩ "u" none "u.jpg" rfl rfl

/-- C8: the batch call resolves every submitted url to exactly one outcome
-- its path in `downloaded` or the url itself in `failed` -- and per-item
failures are absorbed into the `failed` list rather than escaping, so the
two lists partition the input: their lengths sum to the number of urls. -/
theorem C8_outcome_partition (cfg : DlCfg) (σ : Store) (urls : List String) :
    ((callDownloader cfg σ urls).1.downloaded).length +
      ((callDownloader cfg σ urls).1.failed).length = urls.length := by
  induction urls generalizing σ with
  | nil => rfl
  | cons u rest ih =>
      unfold callDownloader
      cases h : (downloadImage cfg σ u none).1 with
      | ok p =>
          have := ih (downloadImage cfg σ u none).2.1
          simp only [h, List.length_cons]
          omega
      | error e =>
          have := ih (downloadImage cfg σ u none).2.1
          simp only [h, List.length_cons]
          omega

/-- C9: the failing call and the intended log line. The keyword argument
`verbose` of the call in `ImageLoader.__download_images` is not a parameter
of `imgdl.downloader.download`, so the batch call raises a `TypeError`
before any download or log happens -- even though the shortfall log line of
the very same method would produce exactly the message the claim states for
a batch of 3 with 2 successes. -/
theorem C9_download_call_raises :
    bindKwargs downloadParamNames loaderDownloadKwargs =
      Except.error "TypeError: unexpected keyword argument verbose" ∧
    shortfallMsg 3 2 = "Failed to load 3 images; loaded count: 2" :=
  ⟨rfl, rfl⟩

/-- C6: the skip set is computed but never consulted. The tuple `main`
passes to the pipeline contains only the links, the count and the output
directory, so it is identical for any two contents of `--prev-dir` --
even though the parsed skip sets genuinely differ (second conjunct) -- and
the pipeline's behavior cannot depend on the SkipSet. -/
theorem C6_skip_set_never_consulted (links : List String) (size : Nat × Nat)
    (count : Int) (dir : String) (outFiles prev1 prev2 : List String) :
    (mainDownloadArgs (parseArgsModel links size count dir outFiles prev1) =
      mainDownloadArgs (parseArgsModel links size count dir outFiles prev2)) ∧
    (parseArgsModel ["l"] (0, 0) 0 "d" [] ["prev.jpg"]).skipFiles ≠
      (parseArgsModel ["l"] (0, 0) 0 "d" [] []).skipFiles :=
  ⟨rfl, by decide⟩

/-- C10: with a positive `--count N`, the count handed to the pipeline by
`main` is `N` plus the number of files at the top level of the output
directory; with `--count 0` it stays 0. -/
theorem C10_count_adjustment (links : List String) (size : Nat × Nat)
    (n : Int) (dir : String) (outFiles prevFiles : List String)
    (hn : 0 < n) :
    (mainDownloadArgs (parseArgsModel links size n dir outFiles prevFiles)).2.1 =
      n + (outFiles.length : Int) ∧
    (mainDownloadArgs (parseArgsModel links size 0 dir outFiles prevFiles)).2.1 = 0 := by
  constructor
  · simp [mainDownloadArgs, parseArgsModel, adjustedCount, hn]
  · simp [mainDownloadArgs, parseArgsModel, adjustedCount]

/-- C10 witness: the adjustment at a concrete input (count 2, two files at
the top level of the output directory). -/
theorem C10_count_adjustment_witness :
    (mainDownloadArgs (parseArgsModel ["l"] (0, 0) 2 "d" ["a.jpg", "b.png"] [])).2.1 =
      2 + ((["a.jpg", "b.png"] : List String).length : Int) ∧
    (mainDownloadArgs (parseArgsModel ["l"] (0, 0) 0 "d" ["a.jpg", "b.png"] [])).2.1 = 0 :=
  C10_count_adjustment ["l"] (0, 0) 2 "d" ["a.jpg", "b.png"] [] (by decide)

end YIC
